import Mathlib

/-!
Shallow embedding of `openlibrary/i18n/__init__.py`: the catalog lifecycle
helpers (`_compile_translation`, `_validate_catalog`, `update_translations`,
`generate_po`) and the runtime resolver (`GetText`, `LazyGetText`,
`ungettext`, `gettext_territory`, `load_translations`, `load_locale`).

Python's ambient state (`web.ctx.lang`, the on-disk catalogs, the babel
locale database) is made an explicit `Ctx` record threaded through the
resolver functions; file-system effects of the offline pipeline are made
explicit state-in/state-out values.  Parts of the babel library that the
source calls but that are not in the repository (`Catalog.update`,
`Translations.ugettext` / `ungettext` miss behaviour, `babel.Locale`) are
modelled from the specification and marked as such in their doc comments.
-/

namespace OLi18n

/-- A message entry of a textual catalog, after `read_po`
(babel `Message`): source id, translation, plural translations,
locations, extractor comments, fuzzy flag and the line number the
entry was parsed at (if any). -/
structure Message where
  id : String
  translation : String := ""
  pluralTranslations : List String := []
  locations : List (String × Nat) := []
  autoComments : List String := []
  fuzzy : Bool := false
  lineno : Option Nat := none
deriving Repr, DecidableEq

/-- The diagnostic `_validate_catalog` emits for one fuzzy message:
with a known line number, the `openlibrary/i18n/<locale>/messages.po:<lineno>:
"<string>" is fuzzy.` line; without one, the generic file-level message. -/
def fuzzyDiagnostic (locale : String) (m : Message) : String :=
  match m.lineno with
  | some n =>
      "openlibrary/i18n/" ++ locale ++ "/messages.po:" ++ toString n
        ++ ": \"" ++ m.translation ++ "\" is fuzzy."
  | none =>
      "  File is fuzzy.  Remove line containing \"#, fuzzy\" found near the beginning of the file."

/-- `_validate_catalog(catalog, locale)`: walk the catalog in order, collect
one diagnostic per fuzzy message (`validation_errors`, printed by the
source), and return `len(validation_errors) == 0` together with that list. -/
def validateCatalog (catalog : List Message) (locale : String) :
    Bool × List String :=
  let validation_errors := (catalog.filter (fun m => m.fuzzy)).map (fuzzyDiagnostic locale)
  (validation_errors.length == 0, validation_errors)

/-- A compiled catalog as loaded by `babel.support.Translations` from a
`.mo` file: a finite map from singular message ids to translations, and a
finite map for plural entries.  The plural map is keyed by the message id
together with the count class (`count == 1` or not), abstracting babel's
plural-rule index for the locales in play. -/
structure Translations where
  singular : List (String × String)
  pluralMap : List ((String × Bool) × String)
deriving Repr, DecidableEq

/-- Modelled from the spec: `Translations.ugettext` looks `message` up in
the locale's compiled catalog; a message that is absent resolves to the
message itself ("if absent, not found, ... return `message` unchanged"). -/
def Translations.ugettext (t : Translations) (message : String) : String :=
  match t.singular.lookup message with
  | some v => v
  | none => message

/-- Look up the plural entry for `s1` under count `n` in the compiled
catalog (the `(msgid, plural-class)` key of the plural map). -/
def Translations.lookupPlural (t : Translations) (s1 : String) (n : Nat) :
    Option String :=
  t.pluralMap.lookup (s1, n == 1)

/-- Modelled from the spec: `Translations.ungettext` looks up the plural
entry; on a miss it falls back to `singularMessage` when `count == 1` else
`pluralMessage`. -/
def Translations.ungettextB (t : Translations) (s1 s2 : String) (n : Nat) :
    String :=
  match t.lookupPlural s1 n with
  | some v => v
  | none => if n == 1 then s1 else s2

/-- Locale metadata (babel `Locale`): the territory-code → display-name map
used by `gettext_territory`. -/
structure Locale where
  territories : List (String × String)
deriving Repr, DecidableEq

/-- The ambient state the resolver reads: the active locale
(`web.ctx.lang`, set per request by `i18n_loadhook`), the compiled
catalogs present on disk per locale (`messages.mo` files), and the babel
locale database consulted by `babel.Locale`. -/
structure Ctx where
  lang : String
  compiled : List (String × Translations)
  localeDb : List (String × Locale)
deriving Repr, DecidableEq

/-- `load_translations(lang)`: if a compiled `messages.mo` exists for the
locale, return its `Translations`; otherwise the function falls through
and returns `None`. -/
def load_translations (ctx : Ctx) (lang : String) : Option Translations :=
  ctx.compiled.lookup lang

/-- `load_locale(lang)`: `babel.Locale(lang)` for a recognized code;
`UnknownLocaleError` for an unrecognized one is caught and turned into
`None` (the babel database itself is modelled from the spec: it resolves
recognized codes and fails on unrecognized ones). -/
def load_locale (ctx : Ctx) (lang : String) : Option Locale :=
  ctx.localeDb.lookup lang

/-- Python exceptions that escape the embedded fragments. -/
inductive PyError where
  | attributeError : PyError
deriving Repr, DecidableEq

/-- Modelled from Python's `%` operator restricted to the `%s`
conversions the resolver's messages use: substitute positional arguments
left to right. -/
def pyFormatPosAux : List Char → List String → List Char
  | '%' :: 's' :: rest, a :: as => a.toList ++ pyFormatPosAux rest as
  | c :: rest, as => c :: pyFormatPosAux rest as
  | [], _ => []

/-- `value % args` with a tuple of positional arguments. -/
def pyFormatPos (s : String) (args : List String) : String :=
  ⟨pyFormatPosAux s.toList args⟩

/-- `value % kwargs` with named arguments: substitute each
`%(name)s` placeholder by the named value. -/
def pyFormatNamed (s : String) (kwargs : List (String × String)) : String :=
  kwargs.foldl (fun acc p => acc.replace ("%(" ++ p.1 ++ ")s") p.2) s

/-- The trailing `if args: value % args elif kwargs: value % kwargs
else: value` dispatch shared by `GetText.__call__` and `ungettext`. -/
def applyPercent (value : String) (args : List String)
    (kwargs : List (String × String)) : String :=
  if args ≠ [] then pyFormatPos value args
  else if kwargs ≠ [] then pyFormatNamed value kwargs
  else value

/-- `GetText.__call__(string, *args, **kwargs)`:
`translations = load_translations(web.ctx.lang)`;
`value = (translations and translations.ugettext(string)) or string`
(Python truthiness: a `None` catalog or an empty lookup result falls back
to `string`); then positional or named substitution. -/
def GetText.call (ctx : Ctx) (string : String) (args : List String)
    (kwargs : List (String × String)) : String :=
  let value :=
    match load_translations ctx ctx.lang with
    | none => string
    | some translations =>
        let v := translations.ugettext string
        if v = "" then string else v
  applyPercent value args kwargs

/-- `ungettext(s1, s2, _n, *a, **kw)`:
`value = translations and translations.ungettext(s1, s2, _n)`; a falsy
`value` (`None` catalog or empty lookup) falls back to `s1` when
`_n == 1` else `s2`; then positional or named substitution. -/
def ungettext (ctx : Ctx) (s1 s2 : String) (n : Nat) (a : List String)
    (kw : List (String × String)) : String :=
  let value0 :=
    match load_translations ctx ctx.lang with
    | none => ""
    | some translations => translations.ungettextB s1 s2 n
  let value := if value0 = "" then (if n == 1 then s1 else s2) else value0
  applyPercent value a kw

/-- A `LazyObject` stores only its creator closure; every conversion runs
the closure afresh.  The ambient `web.ctx` the closure reads at run time
is the explicit `Ctx` argument of each conversion. -/
structure LazyObject where
  creator : Ctx → String

/-- `LazyObject.__str__`: run the creator (`web.safestr` is the identity
on strings). -/
def LazyObject.str (o : LazyObject) (ctx : Ctx) : String :=
  o.creator ctx

/-- `LazyObject.__add__`: `self._creator() + other`. -/
def LazyObject.add (o : LazyObject) (other : String) (ctx : Ctx) : String :=
  o.creator ctx ++ other

/-- `LazyObject.__radd__`: `other + self._creator()`. -/
def LazyObject.radd (o : LazyObject) (other : String) (ctx : Ctx) : String :=
  other ++ o.creator ctx

/-- `LazyGetText.__call__(string, *args, **kwargs)`: wrap
`lambda: GetText()(string, *args, **kwargs)` — note the closure captures
the message and arguments only; `web.ctx.lang` is read when the lambda
eventually runs. -/
def LazyGetText.call (string : String) (args : List String)
    (kwargs : List (String × String)) : LazyObject :=
  ⟨fun ctx => GetText.call ctx string args kwargs⟩

/-- `gettext_territory(code)`: `locale = load_locale(web.ctx.lang)` then
`locale.territories.get(code, code)`.  When `load_locale` returned `None`
(unrecognized active locale) the attribute access on `None` raises
`AttributeError`. -/
def gettext_territory (ctx : Ctx) (code : String) : Except PyError String :=
  match load_locale ctx ctx.lang with
  | none => .error .attributeError
  | some locale => .ok ((locale.territories.lookup code).getD code)

/-- Result of the external `write_mo` serializer on an already-open file:
either the full compiled bytes, or a failure after some bytes were
already written to the file (possibly none). -/
inductive WriteMoResult where
  | success : String → WriteMoResult
  | failure : String → String → WriteMoResult
deriving Repr, DecidableEq

/-- The observable result of `_compile_translation`: the content sitting
at the `.mo` output path afterwards, and whether the call returned or
re-raised the exception `e`. -/
structure CompileResult where
  moContent : Option String
  outcome : Except String Unit
deriving Repr

/-- `_compile_translation(po, mo)`: `read_po` the working catalog (a
failure happens before the output is touched, and is re-raised);
`open(mo, 'wb')` truncates the output file; `write_mo` then either writes
the full compiled form, or raises after having written some bytes — the
exception is re-raised and whatever was written stays at the output path.
`read_po` and `write_mo` are the external serializers, passed in as
functions. -/
def compileTranslation {α : Type} (read_po : Except String α)
    (write_mo : α → WriteMoResult) (mo : Option String) : CompileResult :=
  match read_po with
  | .error e => ⟨mo, .error e⟩
  | .ok catalog =>
      match write_mo catalog with
      | .success bytes => ⟨some bytes, .ok ()⟩
      | .failure written e => ⟨some written, .error e⟩

/-- The file-system state `generate_po(args)` sees for the requested
locale: whether the locale directory and the working catalog exist, the
template's content, and the current content at the working-catalog path. -/
structure SeedState where
  dirExists : Bool
  poExists : Bool
  potContent : String
  poContent : Option String
deriving Repr, DecidableEq

/-- Which message `generate_po` printed. -/
inductive SeedOutcome where
  | alreadyExists
  | created
  | missingLocaleArg
deriving Repr, DecidableEq

/-- The observable result of `generate_po`: the message printed, whether
the locale directory exists afterwards, the mode set on a freshly created
directory, the content at the working-catalog path, and the mode set on a
freshly created catalog file. -/
structure SeedResult where
  outcome : SeedOutcome
  dirExists : Bool
  dirMode : Option Nat
  poContent : Option String
  poMode : Option Nat
deriving Repr, DecidableEq

/-- `generate_po(args)`: with a locale argument, if the locale directory
exists and `messages.po` exists, print "already exists" and touch
nothing; if the directory exists but the file does not, copy the
template there and `chmod 0o666`; if the directory does not exist,
`mkdir` it, `chmod 0o777`, copy the template and `chmod 0o666`.  Without
an argument, print "Add failed." and touch nothing. -/
def generate_po (st : SeedState) (hasArg : Bool) : SeedResult :=
  if hasArg then
    if st.dirExists then
      if st.poExists then
        ⟨.alreadyExists, true, none, st.poContent, none⟩
      else
        ⟨.created, true, none, some st.potContent, some 0o666⟩
    else
      ⟨.created, true, some 0o777, some st.potContent, some 0o666⟩
  else
    ⟨.missingLocaleArg, st.dirExists, none, st.poContent, none⟩

/-- First message with the given id (`id` is unique within a catalog). -/
def lookupMessage (c : List Message) (id : String) : Option Message :=
  c.find? (fun m => m.id == id)

/-- Modelled from the spec: babel's `Catalog.update`, the merge
`update_translations` performs per template message (the babel code is
not under the repository sources).  Id present in both: keep the
existing entry's translation and plural translations and its fuzzy
state, refresh locations and comments from the template; id present only
in the template: insert with empty translation and `fuzzy = false`. -/
def mergeEntry (existing : Option Message) (tm : Message) : Message :=
  match existing with
  | some em =>
      { tm with
        translation := em.translation
        pluralTranslations := em.pluralTranslations
        fuzzy := em.fuzzy }
  | none => { tm with translation := "", fuzzy := false }

/-- Modelled from the spec: `catalog.update(template)` as called by
`update_translations` — the merged catalog follows template order,
each template id merged against the existing catalog's entry for that
id; ids present only in the existing catalog are dropped. -/
def catalogUpdate (existing template : List Message) : List Message :=
  template.map (fun tm => mergeEntry (lookupMessage existing tm.id) tm)

/-- C7: `_validate_catalog` returns ok=true iff zero fuzzy diagnostics
were produced; a catalog with zero fuzzy entries validates ok=true with
an empty diagnostics list; a catalog whose single fuzzy entry has a
known line number produces exactly one diagnostic line containing that
line number; a fuzzy entry with no line number produces the generic
file-level fuzzy message instead. -/
theorem C7_validation_gate (catalog : List Message) (locale : String) :
    ((validateCatalog catalog locale).1 = true ↔
      (validateCatalog catalog locale).2 = [])
    ∧ (catalog.filter (fun m => m.fuzzy) = [] →
        validateCatalog catalog locale = (true, []))
    ∧ (∀ m n, catalog.filter (fun m => m.fuzzy) = [m] → m.lineno = some n →
        (validateCatalog catalog locale).2 = [fuzzyDiagnostic locale m]
        ∧ ∃ pre post, fuzzyDiagnostic locale m = pre ++ toString n ++ post)
    ∧ (∀ m : Message, m.lineno = none → fuzzyDiagnostic locale m =
        "  File is fuzzy.  Remove line containing \"#, fuzzy\" found near the beginning of the file.") := by
  refine ⟨?_, ?_, ?_, ?_⟩
  · simp [validateCatalog]
  · intro h
    simp [validateCatalog, h]
  · intro m n hf hl
    refine ⟨by simp [validateCatalog, hf], ?_⟩
    refine ⟨"openlibrary/i18n/" ++ locale ++ "/messages.po:",
      ": \"" ++ m.translation ++ "\" is fuzzy.", ?_⟩
    simp only [fuzzyDiagnostic, hl, String.append_assoc]
  · intro m hl
    simp [fuzzyDiagnostic, hl]

/-- Witness for C7 at a concrete catalog: one fuzzy entry at line 12
yields exactly the diagnostic for that entry, and that diagnostic
contains the line number. -/
theorem C7_validation_gate_witness :
    (validateCatalog
        [{ id := "book", translation := "livre", fuzzy := true,
           lineno := some 12 }] "fr").2 =
      [fuzzyDiagnostic "fr"
        { id := "book", translation := "livre", fuzzy := true,
          lineno := some 12 }]
    ∧ ∃ pre post,
        fuzzyDiagnostic "fr"
          { id := "book", translation := "livre", fuzzy := true,
            lineno := some 12 } = pre ++ toString 12 ++ post :=
  (C7_validation_gate
      [{ id := "book", translation := "livre", fuzzy := true,
         lineno := some 12 }] "fr").2.2.1
    { id := "book", translation := "livre", fuzzy := true,
      lineno := some 12 } 12 rfl rfl

/-- C2: when the message is absent from the locale's compiled catalog, or
the locale has no compiled catalog at all, `GetText.__call__` with no
format arguments returns the message unchanged.  (The embedding is a
total function, reflecting that the call never fails and always returns
some string.) -/
theorem C2_resolution_fallback (ctx : Ctx) (s : String)
    (h : load_translations ctx ctx.lang = none ∨
         ∃ t, load_translations ctx ctx.lang = some t ∧
              t.singular.lookup s = none) :
    GetText.call ctx s [] [] = s := by
  rcases h with h | ⟨t, ht, hs⟩
  · simp [GetText.call, applyPercent, h]
  · simp [GetText.call, applyPercent, ht, Translations.ugettext, hs]

/-- Witness for C2: a locale whose catalog lacks the message, and a locale
with no compiled catalog at all, both resolve to the message itself. -/
theorem C2_resolution_fallback_witness :
    GetText.call ⟨"de", [("de", ⟨[("hello", "hallo")], []⟩)], []⟩
        "goodbye" [] [] = "goodbye"
    ∧ GetText.call ⟨"xx", [("de", ⟨[("hello", "hallo")], []⟩)], []⟩
        "hello" [] [] = "hello" :=
  ⟨C2_resolution_fallback ⟨"de", [("de", ⟨[("hello", "hallo")], []⟩)], []⟩
      "goodbye" (Or.inr ⟨⟨[("hello", "hallo")], []⟩, rfl, rfl⟩),
   C2_resolution_fallback ⟨"xx", [("de", ⟨[("hello", "hallo")], []⟩)], []⟩
      "hello" (Or.inl rfl)⟩

/-- C3: when the locale's catalog yields no usable plural value (no
catalog, no plural entry, or an empty plural entry), `ungettext` returns
`s1` if the count is 1 and `s2` otherwise, then applies substitution if
format arguments are given. -/
theorem C3_plural_fallback (ctx : Ctx) (s1 s2 : String) (n : Nat)
    (a : List String) (kw : List (String × String))
    (h : load_translations ctx ctx.lang = none ∨
         ∃ t, load_translations ctx ctx.lang = some t ∧
              (t.lookupPlural s1 n = none ∨ t.lookupPlural s1 n = some "")) :
    ungettext ctx s1 s2 n a kw =
      applyPercent (if n == 1 then s1 else s2) a kw := by
  rcases h with h | ⟨t, ht, hp | hp⟩
  · simp [ungettext, h]
  · simp [ungettext, ht, Translations.ungettextB, hp, ite_self]
  · simp [ungettext, ht, Translations.ungettextB, hp]

/-- Witness for C3 (the spec's own instance): with no plural catalog
entry, `resolvePlural(_, "one item", "many items", 1)` returns
`"one item"`; with count 5, returns `"many items"`. -/
theorem C3_plural_fallback_witness :
    ungettext ⟨"en", [], []⟩ "one item" "many items" 1 [] [] = "one item"
    ∧ ungettext ⟨"en", [], []⟩ "one item" "many items" 5 [] [] =
        "many items" :=
  ⟨C3_plural_fallback ⟨"en", [], []⟩ "one item" "many items" 1 [] []
      (Or.inl rfl),
   C3_plural_fallback ⟨"en", [], []⟩ "one item" "many items" 5 [] []
      (Or.inl rfl)⟩

/-- C10: a compiled catalog that maps a message (or plural entry) to the
empty string is treated like a missing translation: `GetText.__call__`
returns the source message and `ungettext` the count-selected fallback,
because both test the looked-up value for truthiness, not presence. -/
theorem C10_empty_translation_fallback (ctx : Ctx) (t : Translations)
    (s s1 s2 : String) (n : Nat)
    (hload : load_translations ctx ctx.lang = some t)
    (hs : t.singular.lookup s = some "")
    (hp : t.lookupPlural s1 n = some "") :
    GetText.call ctx s [] [] = s
    ∧ ungettext ctx s1 s2 n [] [] = (if n == 1 then s1 else s2) := by
  constructor
  · simp [GetText.call, applyPercent, hload, Translations.ugettext, hs]
  · simp [ungettext, applyPercent, hload, Translations.ungettextB, hp]

/-- Witness for C10: a catalog with empty singular and plural entries
resolves to the source message and the count-selected message. -/
theorem C10_empty_translation_fallback_witness :
    GetText.call
        ⟨"fr", [("fr", ⟨[("hello", "")], [(("item", true), "")]⟩)], []⟩
        "hello" [] [] = "hello"
    ∧ ungettext
        ⟨"fr", [("fr", ⟨[("hello", "")], [(("item", true), "")]⟩)], []⟩
        "item" "items" 1 [] [] = "item" :=
  C10_empty_translation_fallback
    ⟨"fr", [("fr", ⟨[("hello", "")], [(("item", true), "")]⟩)], []⟩
    ⟨[("hello", "")], [(("item", true), "")]⟩
    "hello" "item" "items" 1 rfl rfl rfl

/-- C5: a deferred string wraps a closure over the message and arguments
only; every conversion (stringification or concatenation) re-runs the
full resolution against the context supplied at conversion time, so the
active locale at creation time cannot influence the result — in
particular, forcing under a context that resolves the message to `v`
yields `v`. -/
theorem C5_lazy_reevaluation (s other : String) (a : List String)
    (kw : List (String × String)) (ctxForce : Ctx) (t : Translations)
    (v : String)
    (hload : load_translations ctxForce ctxForce.lang = some t)
    (hlook : t.singular.lookup s = some v) (hv : ¬ v = "") :
    (∀ ctx : Ctx,
        (LazyGetText.call s a kw).str ctx = GetText.call ctx s a kw)
    ∧ (∀ ctx : Ctx,
        (LazyGetText.call s a kw).add other ctx =
          GetText.call ctx s a kw ++ other)
    ∧ (∀ ctx : Ctx,
        (LazyGetText.call s a kw).radd other ctx =
          other ++ GetText.call ctx s a kw)
    ∧ (LazyGetText.call s [] []).str ctxForce = v := by
  refine ⟨fun ctx => rfl, fun ctx => rfl, fun ctx => rfl, ?_⟩
  simp [LazyGetText.call, LazyObject.str, GetText.call, applyPercent,
    hload, Translations.ugettext, hlook, hv]

/-- Witness for C5: the deferred string for "hello" is created without
reference to any context (so the locale at creation time — say `en` — is
irrelevant); forced after the active locale has changed to `fr`, it
resolves through the `fr` catalog to "bonjour". -/
theorem C5_lazy_reevaluation_witness :
    (LazyGetText.call "hello" [] []).str
        ⟨"fr", [("en", ⟨[("hello", "hello")], []⟩),
                ("fr", ⟨[("hello", "bonjour")], []⟩)], []⟩ = "bonjour" :=
  (C5_lazy_reevaluation "hello" "" [] []
      ⟨"fr", [("en", ⟨[("hello", "hello")], []⟩),
              ("fr", ⟨[("hello", "bonjour")], []⟩)], []⟩
      ⟨[("hello", "bonjour")], []⟩ "bonjour" rfl rfl
      (by decide)).2.2.2

theorem mergeEntry_id (existing : Option Message) (tm : Message) :
    (mergeEntry existing tm).id = tm.id := by
  cases existing <;> rfl

theorem lookupMessage_catalogUpdate (existing template : List Message)
    (id : String) :
    lookupMessage (catalogUpdate existing template) id =
      (lookupMessage template id).map
        (fun tm => mergeEntry (lookupMessage existing tm.id) tm) := by
  induction template with
  | nil => rfl
  | cons tm rest ih =>
      unfold catalogUpdate at ih ⊢
      simp only [lookupMessage, List.map_cons] at ih ⊢
      by_cases h : tm.id = id
      · rw [List.find?_cons_of_pos _ (by simp [mergeEntry_id, h]),
          List.find?_cons_of_pos _ (by simp [h])]
        rfl
      · rw [List.find?_cons_of_neg _ (by simp [mergeEntry_id, h]),
          List.find?_cons_of_neg _ (by simp [h])]
        exact ih

/-- C1: merge preserves content — if the existing working catalog
translates message id `M` to `T` and the template still contains `M`,
the merged catalog produced by `catalog.update(template)` still maps `M`
to `T`. -/
theorem C1_merge_preserves_content (existing template : List Message)
    (M T : String) (em tm : Message)
    (he : lookupMessage existing M = some em) (hT : em.translation = T)
    (ht : lookupMessage template M = some tm) :
    ∃ mm, lookupMessage (catalogUpdate existing template) M = some mm
      ∧ mm.translation = T := by
  refine ⟨mergeEntry (lookupMessage existing tm.id) tm, ?_, ?_⟩
  · rw [lookupMessage_catalogUpdate, ht]; rfl
  · have hid : tm.id = M := by simpa using List.find?_some ht
    rw [hid, he]
    simpa [mergeEntry] using hT

/-- Witness for C1: an existing catalog translating "hello" to
"bonjour", merged against a template still containing "hello", keeps the
translation "bonjour". -/
theorem C1_merge_preserves_content_witness :
    ∃ mm,
      lookupMessage
        (catalogUpdate [{ id := "hello", translation := "bonjour" }]
          [{ id := "hello", locations := [("a.py", 3)] }]) "hello" =
        some mm
      ∧ mm.translation = "bonjour" :=
  C1_merge_preserves_content
    [{ id := "hello", translation := "bonjour" }]
    [{ id := "hello", locations := [("a.py", 3)] }]
    "hello" "bonjour"
    { id := "hello", translation := "bonjour" }
    { id := "hello", locations := [("a.py", 3)] }
    rfl rfl rfl

/-- C4: merge adds newcomers — a message id present only in the template
appears in the merged result with an empty translation and
`fuzzy = false`. -/
theorem C4_merge_adds_newcomers (existing template : List Message)
    (id : String) (tm : Message)
    (ht : lookupMessage template id = some tm)
    (he : lookupMessage existing id = none) :
    ∃ mm, lookupMessage (catalogUpdate existing template) id = some mm
      ∧ mm.translation = "" ∧ mm.fuzzy = false := by
  refine ⟨mergeEntry (lookupMessage existing tm.id) tm, ?_, ?_⟩
  · rw [lookupMessage_catalogUpdate, ht]; rfl
  · have hid : tm.id = id := by simpa using List.find?_some ht
    rw [hid, he]
    simp [mergeEntry]

/-- Witness for C4: a template message absent from the existing catalog
is inserted untranslated and not fuzzy. -/
theorem C4_merge_adds_newcomers_witness :
    ∃ mm,
      lookupMessage
        (catalogUpdate [{ id := "hello", translation := "bonjour" }]
          [{ id := "hello" }, { id := "world" }]) "world" = some mm
      ∧ mm.translation = "" ∧ mm.fuzzy = false :=
  C4_merge_adds_newcomers
    [{ id := "hello", translation := "bonjour" }]
    [{ id := "hello" }, { id := "world" }]
    "world" { id := "world" } rfl rfl

/-- C6 counterexample: with an unrecognized active locale (here "zz-ZZ",
absent from the locale database), `load_locale` returns `None` and
`gettext_territory` dereferences it — the call raises `AttributeError`
instead of returning a string, so the claim that it returns a string for
every active locale is false. -/
theorem C6_territory_counterexample :
    gettext_territory ⟨"zz-ZZ", [], []⟩ "US" =
      Except.error PyError.attributeError
    ∧ ¬ ∃ s : String,
        gettext_territory ⟨"zz-ZZ", [], []⟩ "US" = Except.ok s := by
  refine ⟨rfl, ?_⟩
  rintro ⟨s, h⟩
  simp [gettext_territory, load_locale] at h

/-- C6 amended: whenever the active locale is recognized (`load_locale`
succeeds), `gettext_territory` returns a string, and an unrecognized
territory code is returned unchanged; the safe-degradation does not
extend to an unrecognized active locale, where the call raises. -/
theorem C6_territory_amended (ctx : Ctx) (code : String) (loc : Locale)
    (h : load_locale ctx ctx.lang = some loc) :
    gettext_territory ctx code =
      Except.ok ((loc.territories.lookup code).getD code)
    ∧ (loc.territories.lookup code = none →
        gettext_territory ctx code = Except.ok code) := by
  constructor
  · simp [gettext_territory, h]
  · intro hc
    simp [gettext_territory, h, hc]

/-- Witness for the amended C6: with a recognized "en" locale, an
unknown territory code "XQ" is returned unchanged. -/
theorem C6_territory_amended_witness :
    gettext_territory
        ⟨"en", [], [("en", ⟨[("US", "United States")]⟩)]⟩ "XQ" =
      Except.ok "XQ" :=
  (C6_territory_amended
      ⟨"en", [], [("en", ⟨[("US", "United States")]⟩)]⟩ "XQ"
      ⟨[("US", "United States")]⟩ rfl).2 rfl

/-- C8 counterexample: `_compile_translation` opens the `.mo` output with
mode 'wb' (truncating it) and writes in place; a `write_mo` failure
leaves the truncated (here empty) file at the output path where the
previous compiled artifact "OLD-MO" stood — the compile failed, yet a
partially written artifact remains, so the atomicity part of the claim
is false. -/
theorem C8_compile_counterexample :
    (compileTranslation (Except.ok ())
        (fun _ => WriteMoResult.failure "" "write_mo failed")
        (some "OLD-MO")).outcome = Except.error "write_mo failed"
    ∧ (compileTranslation (Except.ok ())
        (fun _ => WriteMoResult.failure "" "write_mo failed")
        (some "OLD-MO")).moContent = some ""
    ∧ some "" ≠ some "OLD-MO" := by
  refine ⟨rfl, rfl, by decide⟩

/-- C8 amended: compile either produces the compiled binary or fails
re-raising the underlying cause; a parse failure (before the output is
opened) leaves the output path untouched, but a failure during writing
leaves whatever bytes were written (at least a truncated file) at the
output path — the write is in place, not atomic. -/
theorem C8_compile_amended {α : Type} (read_po : Except String α)
    (write_mo : α → WriteMoResult) (mo : Option String) :
    (∀ e, read_po = Except.error e →
        compileTranslation read_po write_mo mo = ⟨mo, Except.error e⟩)
    ∧ (∀ c bytes, read_po = Except.ok c →
        write_mo c = WriteMoResult.success bytes →
        compileTranslation read_po write_mo mo =
          ⟨some bytes, Except.ok ()⟩)
    ∧ (∀ c written e, read_po = Except.ok c →
        write_mo c = WriteMoResult.failure written e →
        compileTranslation read_po write_mo mo =
          ⟨some written, Except.error e⟩) := by
  refine ⟨?_, ?_, ?_⟩ <;> intros <;> simp_all [compileTranslation]

/-- Witness for the amended C8: a successful run replaces the output
with the compiled bytes; a parse failure leaves the old artifact in
place. -/
theorem C8_compile_amended_witness :
    compileTranslation (Except.ok ())
        (fun _ => WriteMoResult.success "NEW-MO") (some "OLD-MO") =
      ⟨some "NEW-MO", Except.ok ()⟩
    ∧ compileTranslation (α := Unit) (Except.error "bad po")
        (fun _ => WriteMoResult.success "NEW-MO") (some "OLD-MO") =
      ⟨some "OLD-MO", Except.error "bad po"⟩ :=
  ⟨(C8_compile_amended (Except.ok ())
      (fun _ => WriteMoResult.success "NEW-MO") (some "OLD-MO")).2.1
      () "NEW-MO" rfl rfl,
   (C8_compile_amended (α := Unit) (Except.error "bad po")
      (fun _ => WriteMoResult.success "NEW-MO") (some "OLD-MO")).1
      "bad po" rfl⟩

/-- C9 counterexample: when the locale directory exists but the working
catalog is missing, `generate_po` does not fail — it copies the template
into place and reports creation, so the claim that it "fails loudly" in
that situation is false. -/
theorem C9_seed_counterexample :
    generate_po ⟨true, false, "TEMPLATE", none⟩ true =
      ⟨SeedOutcome.created, true, none, some "TEMPLATE", some 0o666⟩
    ∧ (generate_po ⟨true, false, "TEMPLATE", none⟩ true).outcome ≠
        SeedOutcome.alreadyExists := by
  refine ⟨rfl, by decide⟩

/-- C9 amended: `generate_po` creates a new working catalog by copying
the current template; it refuses (with an "already exists" message,
without overwriting) when the working catalog already exists; when the
locale directory exists but the catalog is missing it simply creates the
catalog (mode 0o666); when the directory does not exist it creates the
directory with permissive write access (mode 0o777) and the catalog
likewise; without a locale argument it reports failure and touches
nothing. -/
theorem C9_seed_amended (st : SeedState) :
    (st.dirExists = true → st.poExists = true →
        generate_po st true =
          ⟨SeedOutcome.alreadyExists, true, none, st.poContent, none⟩)
    ∧ (st.dirExists = true → st.poExists = false →
        generate_po st true =
          ⟨SeedOutcome.created, true, none, some st.potContent,
            some 0o666⟩)
    ∧ (st.dirExists = false →
        generate_po st true =
          ⟨SeedOutcome.created, true, some 0o777, some st.potContent,
            some 0o666⟩)
    ∧ generate_po st false =
        ⟨SeedOutcome.missingLocaleArg, st.dirExists, none, st.poContent,
          none⟩ := by
  refine ⟨?_, ?_, ?_, ?_⟩ <;> intros <;> simp_all [generate_po]

/-- Witness for the amended C9: an existing catalog is not overwritten;
a missing directory is created with mode 0o777 and the catalog with
0o666. -/
theorem C9_seed_amended_witness :
    generate_po ⟨true, true, "TEMPLATE", some "OLD"⟩ true =
      ⟨SeedOutcome.alreadyExists, true, none, some "OLD", none⟩
    ∧ generate_po ⟨false, false, "TEMPLATE", none⟩ true =
      ⟨SeedOutcome.created, true, some 0o777, some "TEMPLATE",
        some 0o666⟩ :=
  ⟨(C9_seed_amended ⟨true, true, "TEMPLATE", some "OLD"⟩).1 rfl rfl,
   (C9_seed_amended ⟨false, false, "TEMPLATE", none⟩).2.2.1 rfl⟩

end OLi18n
